import Mathlib

/-!
A shallow embedding of `starlette/middleware/http.py` (`HTTPMiddleware`): the dispatch
coordinator that drives a two-suspension-point cooperative flow in lockstep with the
ASGI message stream, together with theorems about its protocol.

The inner application, the transport `send` sink and the flow are modelled explicitly;
the coordinator `HTTPMiddleware.call` is a direct functional transcription of
`HTTPMiddleware.__call__`.  A run returns an `Outcome` (normal return or raised
exception) together with a trace of observable events (messages delivered to the real
transport sink, inner-application invocation, and each operation performed on the flow).
-/

namespace Starlette

/-- A raw header list: ordered (name, value) pairs, as in ASGI start messages. -/
abbrev Headers := List (String × String)

/-- One outbound ASGI message: either `http.response.start` (status code plus header
list) or any other message kind (body chunks etc.), which the middleware never
inspects. -/
inductive Message where
  | start (status : Nat) (headers : Headers)
  | other (payload : String)
deriving DecidableEq, Repr

/-- Exceptions that can travel through the coordinator. -/
inductive Exc where
  | notImplementedError
  | stopAsyncIteration
  | runtimeError (msg : String)
  | userError (name : String)
deriving DecidableEq, Repr

/-- A stand-in for Python's `repr` of an exception, used to build the
"dispatch() handled exception {exc!r}" message text. -/
def Exc.reprStr : Exc → String
  | .notImplementedError => "NotImplementedError()"
  | .stopAsyncIteration => "StopAsyncIteration()"
  | .runtimeError m => "RuntimeError(" ++ m ++ ")"
  | .userError n => n

/-- The part of a `starlette.responses.Response` object the middleware touches: the
status code, the raw header list, and the body it would transmit. -/
structure Response where
  status_code : Nat
  raw_headers : Headers
  body : String
deriving DecidableEq, Repr

/-- Modelled from the spec: `Response.__call__` (in `starlette/responses.py`, which is
not under src/) transmits the response to the transport — "Transmit that response
directly to the transport" — as its start message (status plus headers) followed by its
body message. -/
def Response.transmit (r : Response) : List Message :=
  [Message.start r.status_code r.raw_headers, Message.other r.body]

/-- The lowercased names occurring in a header list. -/
def headerKeys (hs : Headers) : List String :=
  hs.map fun p => p.1.toLower

/-- Modelled from the spec: the header merge performed by
`MutableHeaders(raw=message["headers"]).update(response.headers)`
(`starlette/datastructures.py` is not under src/).  The spec describes it as
"(original headers ∖ keys in H) ∪ H, case-insensitive key comparison": every original
pair whose lowercased name occurs in `add` is dropped, and `add` is appended. -/
def mergeHeaders (orig add : Headers) : Headers :=
  orig.filter (fun p => ¬ (headerKeys add).contains p.1.toLower) ++ add

/-- One interaction step of an async generator, as seen by its driver: it can yield a
value (suspending in a new internal state), terminate (the driver sees
`StopAsyncIteration`), or raise. -/
inductive GenOut (σ : Type) where
  | yielded (v : Option Response) (s : σ)
  | stopped
  | raised (e : Exc)

/-- A dispatch flow (`dispatch()` async generator) over internal state type `σ`:
`start` is its behavior when first advanced (`__anext__`), `send` its behavior when
resumed with the response view (`asend`) — returning also the view as the flow left it,
since the flow mutates the view's headers in place — and `throw` its behavior when an
exception is injected (`athrow`). -/
structure FlowSpec (σ : Type) where
  start : GenOut σ
  send : σ → Response → GenOut σ × Response
  throw : σ → Exc → GenOut σ

/-- Runtime state of the generator held by the coordinator: still suspended at some
internal state, or exhausted. -/
inductive FlowState (σ : Type) where
  | suspended (s : σ)
  | done

/-- Observable events of one coordinator run: a message delivered to the real transport
sink, the inner application being invoked, and each operation performed on the flow
(first advance, resumption with a response view, exception injection, close). -/
inductive Event where
  | sent (m : Message)
  | appCalled
  | flowNext
  | flowSend (view : Response)
  | flowThrow (e : Exc)
  | flowClosed
deriving DecidableEq, Repr

/-- The inner ASGI application, observed through the sink: the messages it sends, in
order, and then either a normal return (`none`) or a raised exception.  An exception
raised by the sink aborts the application and propagates. -/
structure App where
  msgs : List Message
  result : Option Exc
deriving DecidableEq, Repr

/-- The coordinator's per-request bookkeeping while the inner application runs:
`started` is the non-emptiness of the `response_started` set, `flow` the generator's
runtime state, and `trace` the events so far. -/
structure DispatchState (σ : Type) where
  started : Bool
  flow : FlowState σ
  trace : List Event

/-- `wrapped_send`: on `http.response.start`, record `response_started`, build the
response view from the message's status code with `raw_headers` cleared, resume the flow
with it (`asend`), demand termination (`StopAsyncIteration`; a further yield is the
"dispatch() should yield exactly once" error), merge the view's headers into the
message's headers, and forward; any other message is forwarded untouched. -/
def wrappedSend {σ : Type} (F : FlowSpec σ) (st : DispatchState σ) :
    Message → Except Exc Unit × DispatchState σ
  | Message.start status origHeaders =>
    let st1 : DispatchState σ := { st with started := true }
    let view : Response := { status_code := status, raw_headers := [], body := "" }
    match st1.flow with
    | FlowState.done =>
      -- `asend` on an exhausted generator raises `StopAsyncIteration`, which is caught.
      let st2 := { st1 with trace := st1.trace ++ [Event.flowSend view] }
      let merged := mergeHeaders origHeaders view.raw_headers
      (Except.ok (), { st2 with
        trace := st2.trace ++ [Event.sent (Message.start status merged)] })
    | FlowState.suspended s =>
      let st2 := { st1 with trace := st1.trace ++ [Event.flowSend view] }
      match F.send s view with
      | (GenOut.stopped, view2) =>
        let merged := mergeHeaders origHeaders view2.raw_headers
        (Except.ok (), { st2 with
            flow := FlowState.done
            trace := st2.trace ++ [Event.sent (Message.start status merged)] })
      | (GenOut.yielded _ s2, _) =>
        (Except.error (Exc.runtimeError "dispatch() should yield exactly once"),
         { st2 with flow := FlowState.suspended s2 })
      | (GenOut.raised e, _) =>
        (Except.error e, { st2 with flow := FlowState.done })
  | Message.other payload =>
    (Except.ok (), { st with trace := st.trace ++ [Event.sent (Message.other payload)] })

/-- Feeding the inner application's outbound messages through `wrapped_send` in order;
the first exception raised by the sink aborts the run. -/
def sendLoop {σ : Type} (F : FlowSpec σ) :
    List Message → DispatchState σ → Except Exc Unit × DispatchState σ
  | [], st => (Except.ok (), st)
  | m :: ms, st =>
    match wrappedSend F st m with
    | (Except.ok _, st2) => sendLoop F ms st2
    | (Except.error e, st2) => (Except.error e, st2)

/-- `await self.app(scope, receive, wrapped_send)`: the application sends its messages
through the wrapped sink, then returns normally or raises. -/
def runAppWrapped {σ : Type} (F : FlowSpec σ) (app : App) (st : DispatchState σ) :
    Except Exc Unit × DispatchState σ :=
  let st0 := { st with trace := st.trace ++ [Event.appCalled] }
  match sendLoop F app.msgs st0 with
  | (Except.ok _, st2) =>
    match app.result with
    | none => (Except.ok (), st2)
    | some e => (Except.error e, st2)
  | (Except.error e, st2) => (Except.error e, st2)

/-- The result of one coordinator call: normal return, or an exception propagated to
the caller (the transport layer). -/
inductive Outcome where
  | normal
  | raised (e : Exc)
deriving DecidableEq, Repr

/-- The body of the `async with aclosing(...) as flow:` block of
`HTTPMiddleware.__call__`: advance the flow to its first yield (early response if it
yields a value), otherwise run the inner application under `wrapped_send`; on an
application exception with no response started, inject it into the flow (`athrow`) and
transmit a recovered response or re-raise; enforce the "No response returned." check. -/
def callBody {σ : Type} (F : FlowSpec σ) (app : App) : Outcome × List Event :=
  match F.start with
  | GenOut.raised e => (Outcome.raised e, [Event.flowNext])
  | GenOut.stopped => (Outcome.raised Exc.stopAsyncIteration, [Event.flowNext])
  | GenOut.yielded (some r) _ =>
    (Outcome.normal, Event.flowNext :: r.transmit.map Event.sent)
  | GenOut.yielded none s0 =>
    let st0 : DispatchState σ :=
      { started := false, flow := FlowState.suspended s0, trace := [Event.flowNext] }
    match runAppWrapped F app st0 with
    | (Except.ok _, st2) =>
      if st2.started then (Outcome.normal, st2.trace)
      else (Outcome.raised (Exc.runtimeError "No response returned."), st2.trace)
    | (Except.error e, st2) =>
      if st2.started then (Outcome.raised e, st2.trace)
      else
        match st2.flow with
        | FlowState.suspended s =>
          let tr := st2.trace ++ [Event.flowThrow e]
          match F.throw s e with
          | GenOut.stopped =>
            (Outcome.raised (Exc.runtimeError
              ("dispatch() handled exception " ++ e.reprStr
                ++ ", but no response was returned")), tr)
          | GenOut.yielded none _ =>
            (Outcome.raised (Exc.runtimeError
              ("dispatch() handled exception " ++ e.reprStr
                ++ ", but no response was returned")), tr)
          | GenOut.yielded (some r) _ =>
            (Outcome.normal, tr ++ r.transmit.map Event.sent)
          | GenOut.raised e2 => (Outcome.raised e2, tr)
        | FlowState.done =>
          -- `athrow` on an exhausted generator re-raises the injected exception.
          (Outcome.raised e, st2.trace ++ [Event.flowThrow e])

/-- A request scope: its `"type"` key, and an abstract payload standing for the rest. -/
structure Scope where
  type : String
  payload : Nat
deriving DecidableEq, Repr

/-- `HTTPMiddleware` as constructed: the inner app, the class's `dispatch` method (the
base class raises `NotImplementedError`; a subclass overrides it), and the
`dispatch_func` attribute set by `__init__`.  A flow producer returns `Except` because
the base `dispatch` method raises. -/
structure HTTPMiddleware (σ : Type) where
  app : App
  dispatch : Scope → Except Exc (FlowSpec σ)
  dispatch_func : Scope → Except Exc (FlowSpec σ)

/-- The base class's `dispatch` method: `raise NotImplementedError`. -/
def baseDispatch {σ : Type} : Scope → Except Exc (FlowSpec σ) :=
  fun _ => Except.error Exc.notImplementedError

/-- `HTTPMiddleware.__init__`: store the app; `dispatch_func` is the `dispatch`
argument when one is supplied, otherwise the class's `dispatch` method.
`classDispatch` is the `dispatch` method of the class being instantiated
(`baseDispatch` unless a subclass overrides it). -/
def HTTPMiddleware.init {σ : Type} (app : App)
    (classDispatch : Scope → Except Exc (FlowSpec σ))
    (dispatchArg : Option (Scope → Except Exc (FlowSpec σ))) : HTTPMiddleware σ :=
  { app := app
    dispatch := classDispatch
    dispatch_func :=
      match dispatchArg with
      | none => classDispatch
      | some d => d }

/-- Calling the inner application directly with the original source and sink: the
spec's reference behavior for the pass-through property ("observationally identical to
calling the inner application directly").  With the raw sink, every message is
delivered and the application's normal return or exception is the outcome. -/
def callAppDirectly (app : App) : Outcome × List Event :=
  (match app.result with
   | none => Outcome.normal
   | some e => Outcome.raised e,
   Event.appCalled :: app.msgs.map Event.sent)

/-- `HTTPMiddleware.__call__`: non-"http" scopes are passed straight to the inner
application with the raw source and sink; otherwise the flow produced by
`self.dispatch(scope)` is driven under `aclosing` around `callBody`.

Modelled from the spec: `aclosing` (`starlette/_compat.py`, not under src/) closes the
flow on every exit path of the `async with` block, hence `Event.flowClosed` is appended
to the body's trace on every path; if `self.dispatch(scope)` itself raises, the block
is never entered and no close happens. -/
def HTTPMiddleware.call {σ : Type} (m : HTTPMiddleware σ) (scope : Scope) :
    Outcome × List Event :=
  if scope.type ≠ "http" then
    (match m.app.result with
     | none => Outcome.normal
     | some e => Outcome.raised e,
     Event.appCalled :: m.app.msgs.map Event.sent)
  else
    match m.dispatch scope with
    | Except.error e => (Outcome.raised e, [])
    | Except.ok F =>
      let res := callBody F m.app
      (res.1, res.2 ++ [Event.flowClosed])

/-- A subclass of `HTTPMiddleware` overriding the `dispatch` method to produce the flow
`F` (constructed with no `dispatch` argument). -/
def mkSub {σ : Type} (app : App) (F : FlowSpec σ) : HTTPMiddleware σ :=
  HTTPMiddleware.init app (fun _ => Except.ok F) none

/-- The scope of a handled (http) request, with an arbitrary payload. -/
def httpScope : Scope := { type := "http", payload := 0 }

/-! Concrete flows and inputs used to instantiate the general theorems. -/

/-- A concrete recovery response. -/
def sampleResponse : Response :=
  { status_code := 500, raw_headers := [("x-err", "1")], body := "err" }

/-- A well-behaved dispatch flow: yields empty first, sets one header on the response
view and terminates when resumed, and recovers any injected exception with
`sampleResponse`. -/
def sampleFlow : FlowSpec Unit :=
  { start := GenOut.yielded none ()
    send := fun _ v => (GenOut.stopped, { v with raw_headers := [("x-test", "1")] })
    throw := fun _ _ => GenOut.yielded (some sampleResponse) () }

/-- A concrete early response. -/
def earlyResponse : Response :=
  { status_code := 403, raw_headers := [("x-deny", "1")], body := "denied" }

/-- A dispatch flow that yields `earlyResponse` at its first suspension. -/
def earlyFlow : FlowSpec Unit :=
  { start := GenOut.yielded (some earlyResponse) ()
    send := fun _ v => (GenOut.stopped, v)
    throw := fun _ e => GenOut.raised e }

/-- A protocol-violating dispatch flow that suspends a second time when resumed with
the response view. -/
def doubleYieldFlow : FlowSpec Unit :=
  { start := GenOut.yielded none ()
    send := fun s v => (GenOut.yielded none s, v)
    throw := fun _ e => GenOut.raised e }

/-- A concrete inner application for runs that need one. -/
def sampleApp : App :=
  { msgs := [Message.start 200 [("X-Test", "0"), ("a", "b")], Message.other "hello"]
    result := none }

/-! Theorems.  First a helper: on an http scope a subclassed middleware runs
`callBody` under the closing wrapper. -/

theorem mkSub_call_http {σ : Type} (app : App) (F : FlowSpec σ) :
    (mkSub app F).call httpScope
      = ((callBody F app).1, (callBody F app).2 ++ [Event.flowClosed]) := rfl

/-- C1: the claim says the flow driven for a handled request is the one produced by
the user-supplied flow producer.  The code stores the supplied producer in
`dispatch_func` but `__call__` drives `self.dispatch(scope)`: a base `HTTPMiddleware`
constructed with a supplied producer stores it (first conjunct) yet raises
`NotImplementedError` having driven nothing (second conjunct), while the very same
producer installed as the class's `dispatch` method would transmit its early response
(third conjunct). -/
theorem C1_dispatch_func_never_driven :
    (HTTPMiddleware.init ⟨[], none⟩ baseDispatch
        (some fun _ => Except.ok earlyFlow)).dispatch_func httpScope
      = Except.ok earlyFlow
    ∧ (HTTPMiddleware.init (σ := Unit) ⟨[], none⟩ baseDispatch
        (some fun _ => Except.ok earlyFlow)).call httpScope
      = (Outcome.raised Exc.notImplementedError, [])
    ∧ (HTTPMiddleware.init ⟨[], none⟩ (fun _ => Except.ok earlyFlow) none).call httpScope
      = (Outcome.normal,
         [Event.flowNext, Event.sent (Message.start 403 [("x-deny", "1")]),
          Event.sent (Message.other "denied"), Event.flowClosed]) :=
  ⟨rfl, rfl, rfl⟩

/-- C2: when the inner application sends a start message with headers `origH` and the
flow, resumed with the view, leaves header set `H` on it and terminates, the start
message transmitted downstream carries exactly `mergeHeaders origH H`, which is
(original headers with keys of `H` removed, case-insensitively) followed by `H`. -/
theorem C2_header_merge {σ : Type} (F : FlowSpec σ) (s0 : σ) (v2 : Response)
    (status : Nat) (origH H : Headers) (tail : String)
    (h0 : F.start = GenOut.yielded none s0)
    (h1 : F.send s0 { status_code := status, raw_headers := [], body := "" }
            = (GenOut.stopped, v2))
    (h2 : v2.raw_headers = H) :
    (mkSub { msgs := [Message.start status origH, Message.other tail], result := none }
        F).call httpScope
      = (Outcome.normal,
         [Event.flowNext, Event.appCalled,
          Event.flowSend { status_code := status, raw_headers := [], body := "" },
          Event.sent (Message.start status (mergeHeaders origH H)),
          Event.sent (Message.other tail), Event.flowClosed])
    ∧ mergeHeaders origH H
        = origH.filter (fun p => ¬ (H.map fun q => q.1.toLower).contains p.1.toLower)
          ++ H := by
  constructor
  · rw [mkSub_call_http]
    simp [callBody, h0, runAppWrapped, sendLoop, wrappedSend, h1, h2]
  · rfl

theorem C2_header_merge_witness :
    (mkSub { msgs := [Message.start 200 [("X-Test", "0"), ("a", "b")], Message.other "hello"],
             result := none } sampleFlow).call httpScope
      = (Outcome.normal,
         [Event.flowNext, Event.appCalled,
          Event.flowSend { status_code := 200, raw_headers := [], body := "" },
          Event.sent (Message.start 200
            (mergeHeaders [("X-Test", "0"), ("a", "b")] [("x-test", "1")])),
          Event.sent (Message.other "hello"), Event.flowClosed])
    ∧ mergeHeaders [("X-Test", "0"), ("a", "b")] [("x-test", "1")]
        = ([("X-Test", "0"), ("a", "b")] : Headers).filter
            (fun p =>
              ¬ (([("x-test", "1")] : Headers).map fun q => q.1.toLower).contains p.1.toLower)
          ++ [("x-test", "1")] :=
  C2_header_merge sampleFlow ()
    { status_code := 200, raw_headers := [("x-test", "1")], body := "" }
    200 [("X-Test", "0"), ("a", "b")] [("x-test", "1")] "hello" rfl rfl rfl

/-- C3: when a response-start message arrives while the flow is suspended, the view
handed to the flow is built from the message's status code with an empty header list —
whatever headers `origH` the inner application put on the message, they are not on the
view. -/
theorem C3_view_discards_app_headers {σ : Type} (F : FlowSpec σ) (s0 : σ)
    (started0 : Bool) (tr0 : List Event) (status : Nat) (origH : Headers) :
    ∃ rest,
      ((wrappedSend F { started := started0, flow := FlowState.suspended s0, trace := tr0 }
          (Message.start status origH)).2).trace
        = tr0 ++ Event.flowSend { status_code := status, raw_headers := [], body := "" }
            :: rest := by
  cases h : F.send s0 { status_code := status, raw_headers := [], body := "" } with
  | mk g v2 =>
    cases g with
    | yielded v s2 => exact ⟨[], by simp [wrappedSend, h]⟩
    | stopped =>
      exact ⟨[Event.sent (Message.start status (mergeHeaders origH v2.raw_headers))],
        by simp [wrappedSend, h]⟩
    | raised e => exact ⟨[], by simp [wrappedSend, h]⟩

/-- C4: if the inner application raises `E` before any start message and the flow,
receiving the injected `E`, yields response `R`, then the run returns normally with
exactly `R` transmitted to the transport; `E` is raised neither to the caller nor sent
downstream. -/
theorem C4_error_recovery {σ : Type} (F : FlowSpec σ) (s0 s1 : σ) (E : Exc) (R : Response)
    (h0 : F.start = GenOut.yielded none s0)
    (h1 : F.throw s0 E = GenOut.yielded (some R) s1) :
    (mkSub { msgs := [], result := some E } F).call httpScope
      = (Outcome.normal,
         [Event.flowNext, Event.appCalled, Event.flowThrow E,
          Event.sent (Message.start R.status_code R.raw_headers),
          Event.sent (Message.other R.body), Event.flowClosed]) := by
  rw [mkSub_call_http]
  simp [callBody, h0, runAppWrapped, sendLoop, h1, Response.transmit]

theorem C4_error_recovery_witness :
    (mkSub { msgs := [], result := some (Exc.userError "boom") } sampleFlow).call httpScope
      = (Outcome.normal,
         [Event.flowNext, Event.appCalled, Event.flowThrow (Exc.userError "boom"),
          Event.sent (Message.start sampleResponse.status_code sampleResponse.raw_headers),
          Event.sent (Message.other sampleResponse.body), Event.flowClosed]) :=
  C4_error_recovery sampleFlow () () (Exc.userError "boom") sampleResponse rfl rfl

/-- C5: if the inner application sends a start message (handled normally by the flow)
and then raises `E`, the coordinator re-raises `E` unchanged and the flow's error path
(`athrow`) is never invoked. -/
theorem C5_post_start_reraise {σ : Type} (F : FlowSpec σ) (s0 : σ) (v2 : Response)
    (status : Nat) (origH : Headers) (E : Exc)
    (h0 : F.start = GenOut.yielded none s0)
    (h1 : F.send s0 { status_code := status, raw_headers := [], body := "" }
            = (GenOut.stopped, v2)) :
    (mkSub { msgs := [Message.start status origH], result := some E } F).call httpScope
      = (Outcome.raised E,
         [Event.flowNext, Event.appCalled,
          Event.flowSend { status_code := status, raw_headers := [], body := "" },
          Event.sent (Message.start status (mergeHeaders origH v2.raw_headers)),
          Event.flowClosed])
    ∧ ∀ e : Exc, Event.flowThrow e
        ∉ ((mkSub { msgs := [Message.start status origH], result := some E }
              F).call httpScope).2 := by
  have hmain :
      (mkSub { msgs := [Message.start status origH], result := some E } F).call httpScope
        = (Outcome.raised E,
           [Event.flowNext, Event.appCalled,
            Event.flowSend { status_code := status, raw_headers := [], body := "" },
            Event.sent (Message.start status (mergeHeaders origH v2.raw_headers)),
            Event.flowClosed]) := by
    rw [mkSub_call_http]
    simp [callBody, h0, runAppWrapped, sendLoop, wrappedSend, h1]
  refine ⟨hmain, ?_⟩
  intro e
  rw [hmain]
  simp

theorem C5_post_start_reraise_witness :
    (mkSub { msgs := [Message.start 200 [("a", "b")]], result := some (Exc.userError "boom") }
        sampleFlow).call httpScope
      = (Outcome.raised (Exc.userError "boom"),
         [Event.flowNext, Event.appCalled,
          Event.flowSend { status_code := 200, raw_headers := [], body := "" },
          Event.sent (Message.start 200
            (mergeHeaders [("a", "b")]
              (Response.raw_headers
                { status_code := 200, raw_headers := [("x-test", "1")], body := "" }))),
          Event.flowClosed])
    ∧ ∀ e : Exc, Event.flowThrow e
        ∉ ((mkSub { msgs := [Message.start 200 [("a", "b")]]
                    result := some (Exc.userError "boom") } sampleFlow).call httpScope).2 :=
  C5_post_start_reraise sampleFlow ()
    { status_code := 200, raw_headers := [("x-test", "1")], body := "" }
    200 [("a", "b")] (Exc.userError "boom") rfl rfl

/-- C6: if the flow, resumed with the response view, suspends a second time instead of
terminating, the coordinator raises the "dispatch() should yield exactly once" error;
the start message is not forwarded and the second suspended value is not transmitted —
nothing is sent at all. -/
theorem C6_single_yield_fatal {σ : Type} (F : FlowSpec σ) (s0 s1 : σ) (v : Option Response)
    (v2 : Response) (status : Nat) (origH : Headers) (ms : List Message) (res : Option Exc)
    (h0 : F.start = GenOut.yielded none s0)
    (h1 : F.send s0 { status_code := status, raw_headers := [], body := "" }
            = (GenOut.yielded v s1, v2)) :
    (mkSub { msgs := Message.start status origH :: ms, result := res } F).call httpScope
      = (Outcome.raised (Exc.runtimeError "dispatch() should yield exactly once"),
         [Event.flowNext, Event.appCalled,
          Event.flowSend { status_code := status, raw_headers := [], body := "" },
          Event.flowClosed]) := by
  rw [mkSub_call_http]
  simp [callBody, h0, runAppWrapped, sendLoop, wrappedSend, h1]

theorem C6_single_yield_fatal_witness :
    (mkSub { msgs := Message.start 200 [("a", "b")] :: [], result := none }
        doubleYieldFlow).call httpScope
      = (Outcome.raised (Exc.runtimeError "dispatch() should yield exactly once"),
         [Event.flowNext, Event.appCalled,
          Event.flowSend { status_code := 200, raw_headers := [], body := "" },
          Event.flowClosed]) :=
  C6_single_yield_fatal doubleYieldFlow () () none
    { status_code := 200, raw_headers := [], body := "" }
    200 [("a", "b")] [] none rfl rfl

/-- Non-start messages pass through `wrapped_send` untouched: feeding only `other`
messages forwards each of them and changes nothing else. -/
theorem sendLoop_others {σ : Type} (F : FlowSpec σ) (ps : List String)
    (st : DispatchState σ) :
    sendLoop F (ps.map Message.other) st
      = (Except.ok (),
         { st with trace := st.trace ++ ps.map fun p => Event.sent (Message.other p) }) := by
  induction ps generalizing st with
  | nil => simp [sendLoop]
  | cons p ps ih => simp [sendLoop, wrappedSend, ih, List.append_assoc]

/-- C7: if the inner application returns normally having sent only non-start messages
(no response-start at all), the coordinator raises the "No response returned." error
rather than returning successfully. -/
theorem C7_no_response {σ : Type} (F : FlowSpec σ) (s0 : σ) (ps : List String)
    (h0 : F.start = GenOut.yielded none s0) :
    (mkSub { msgs := ps.map Message.other, result := none } F).call httpScope
      = (Outcome.raised (Exc.runtimeError "No response returned."),
         Event.flowNext :: Event.appCalled ::
           ((ps.map fun p => Event.sent (Message.other p)) ++ [Event.flowClosed])) := by
  rw [mkSub_call_http]
  simp [callBody, h0, runAppWrapped, sendLoop_others]

theorem C7_no_response_witness :
    (mkSub { msgs := (["hello"] : List String).map Message.other, result := none }
        sampleFlow).call httpScope
      = (Outcome.raised (Exc.runtimeError "No response returned."),
         Event.flowNext :: Event.appCalled ::
           (((["hello"] : List String).map fun p => Event.sent (Message.other p))
             ++ [Event.flowClosed])) :=
  C7_no_response sampleFlow () ["hello"] rfl

/-- C8: if the flow's first suspension yields response `R`, exactly `R` is transmitted
to the transport and the inner application is never invoked, whatever that
application would have done. -/
theorem C8_early_response {σ : Type} (F : FlowSpec σ) (s0 : σ) (R : Response) (app : App)
    (h0 : F.start = GenOut.yielded (some R) s0) :
    (mkSub app F).call httpScope
      = (Outcome.normal,
         [Event.flowNext, Event.sent (Message.start R.status_code R.raw_headers),
          Event.sent (Message.other R.body), Event.flowClosed])
    ∧ Event.appCalled ∉ ((mkSub app F).call httpScope).2 := by
  have hmain :
      (mkSub app F).call httpScope
        = (Outcome.normal,
           [Event.flowNext, Event.sent (Message.start R.status_code R.raw_headers),
            Event.sent (Message.other R.body), Event.flowClosed]) := by
    rw [mkSub_call_http]
    simp [callBody, h0, Response.transmit]
  refine ⟨hmain, ?_⟩
  rw [hmain]
  simp

theorem C8_early_response_witness :
    (mkSub sampleApp earlyFlow).call httpScope
      = (Outcome.normal,
         [Event.flowNext,
          Event.sent (Message.start earlyResponse.status_code earlyResponse.raw_headers),
          Event.sent (Message.other earlyResponse.body), Event.flowClosed])
    ∧ Event.appCalled ∉ ((mkSub sampleApp earlyFlow).call httpScope).2 :=
  C8_early_response earlyFlow () earlyResponse sampleApp rfl

/-- `wrapped_send` never records a flow close: a close event in its output trace was
already in the input trace. -/
theorem wrappedSend_close_mem {σ : Type} (F : FlowSpec σ) (st : DispatchState σ)
    (m : Message) (h : Event.flowClosed ∈ ((wrappedSend F st m).2).trace) :
    Event.flowClosed ∈ st.trace := by
  cases m with
  | other p =>
    simp [wrappedSend] at h
    exact h
  | start status origH =>
    cases hf : st.flow with
    | done =>
      simp [wrappedSend, hf] at h
      exact h
    | suspended s =>
      cases hs : F.send s { status_code := status, raw_headers := [], body := "" } with
      | mk g v2 =>
        cases g with
        | yielded v s2 =>
          simp [wrappedSend, hf, hs] at h
          exact h
        | stopped =>
          simp [wrappedSend, hf, hs] at h
          exact h
        | raised e =>
          simp [wrappedSend, hf, hs] at h
          exact h

/-- The send loop never records a flow close either. -/
theorem sendLoop_close_mem {σ : Type} (F : FlowSpec σ) (ms : List Message)
    (st : DispatchState σ) (h : Event.flowClosed ∈ ((sendLoop F ms st).2).trace) :
    Event.flowClosed ∈ st.trace := by
  induction ms generalizing st with
  | nil => simpa [sendLoop] using h
  | cons m ms ih =>
    cases hr : wrappedSend F st m with
    | mk r st2 =>
      cases r with
      | ok u =>
        simp only [sendLoop, hr] at h
        exact wrappedSend_close_mem F st m (by rw [hr]; exact ih st2 h)
      | error e =>
        simp only [sendLoop, hr] at h
        exact wrappedSend_close_mem F st m (by rw [hr]; exact h)

/-- The final dispatch state of the wrapped application run is the final state of the
send loop. -/
theorem runAppWrapped_snd {σ : Type} (F : FlowSpec σ) (app : App) (st : DispatchState σ) :
    (runAppWrapped F app st).2
      = (sendLoop F app.msgs { st with trace := st.trace ++ [Event.appCalled] }).2 := by
  cases hs : sendLoop F app.msgs { st with trace := st.trace ++ [Event.appCalled] } with
  | mk r st2 =>
    cases r with
    | ok u =>
      simp only [runAppWrapped]
      rw [hs]
      cases app.result <;> rfl
    | error e =>
      simp only [runAppWrapped]
      rw [hs]

/-- No path through the body of the `async with` block records a flow close; the close
comes only from the closing wrapper itself. -/
theorem callBody_close_not_mem {σ : Type} (F : FlowSpec σ) (app : App) :
    Event.flowClosed ∉ (callBody F app).2 := by
  cases h0 : F.start with
  | raised e => simp [callBody, h0]
  | stopped => simp [callBody, h0]
  | yielded v s0 =>
    cases v with
    | some r => simp [callBody, h0, Response.transmit]
    | none =>
      cases hr : runAppWrapped F app
          { started := false, flow := FlowState.suspended s0,
            trace := [Event.flowNext] } with
      | mk r st2 =>
        have htr : Event.flowClosed ∉ st2.trace := by
          intro hm
          have hm2 : Event.flowClosed ∈
              ((runAppWrapped F app
                { started := false, flow := FlowState.suspended s0,
                  trace := [Event.flowNext] }).2).trace := by
            rw [hr]
            exact hm
          rw [runAppWrapped_snd] at hm2
          have h4 := sendLoop_close_mem F app.msgs _ hm2
          simp at h4
        simp only [callBody, h0]
        rw [hr]
        cases r with
        | ok u =>
          by_cases hs : st2.started
          · simp [hs, htr]
          · simp [hs, htr]
        | error e =>
          by_cases hs : st2.started
          · simp [hs, htr]
          · cases hf : st2.flow with
            | suspended s =>
              cases ht : F.throw s e with
              | yielded vv ss =>
                cases vv with
                | none => simp [hs, hf, ht, htr]
                | some rr => simp [hs, hf, ht, htr, Response.transmit]
              | stopped => simp [hs, hf, ht, htr]
              | raised e2 => simp [hs, hf, ht, htr]
            | done => simp [hs, hf, htr]

/-- C9: on every exit path of a handled-request dispatch — success, early response, and
every error branch, for every flow and every inner application — the flow's close step
is recorded exactly once. -/
theorem C9_flow_closed_once {σ : Type} (F : FlowSpec σ) (app : App) :
    (((mkSub app F).call httpScope).2).count Event.flowClosed = 1 := by
  rw [mkSub_call_http]
  have h := callBody_close_not_mem F app
  simp [List.count_append, List.count_eq_zero.mpr h]

/-- C10: for a request whose scope type is not "http", the coordinator behaves exactly
like calling the inner application directly with the original source and sink: same
outcome, same delivered messages, no flow activity of any kind. -/
theorem C10_pass_through {σ : Type} (m : HTTPMiddleware σ) (scope : Scope)
    (h : scope.type ≠ "http") :
    m.call scope = callAppDirectly m.app := by
  simp [HTTPMiddleware.call, callAppDirectly, h]

theorem C10_pass_through_witness :
    (mkSub sampleApp sampleFlow).call { type := "websocket", payload := 7 }
      = callAppDirectly sampleApp :=
  C10_pass_through (mkSub sampleApp sampleFlow) { type := "websocket", payload := 7 }
    (by decide)

end Starlette
